import Mathlib

/-!
# Verification of the appo-twofile repository

Shallow embedding of the todo stores, HTTP handlers, page dispatch and
bootstrap sequencers of the `appo` demo application variants, together
with proofs of the spec's claims about them.

The repository holds near-duplicate variants of one full-stack demo app:
* `src/app.tsx`, `src/unnamed/part_000`: in-memory todo array, lenient
  POST handler (no validation);
* `src/unnamed/part_002`, `src/unnamed/part_003`: SQLite-backed store
  (`id INTEGER PRIMARY KEY AUTOINCREMENT, text TEXT NOT NULL`), strict
  POST handlers with a 400 branch;
* `src/server.tsx` (second and third concatenated variants),
  `src/unnamed/part_001`, `src/unnamed/part_004`: self-bootstrapping
  variants with a bootstrap sequencer and server-rendered pages whose
  data is fetched client-side.
-/

/-! ## In-memory todo store (src/app.tsx lines 140-162, src/unnamed/part_000 lines 205-224)

The JS record `{ id: nextTodoId++, text: (req.body as any).text }` may carry
`text === undefined` when the request body has no `text` field, so the todo's
text is modelled as `Option String` (`none` = `undefined`). -/

structure MemTodo where
  id : Nat
  text : Option String
deriving DecidableEq, Repr

/-- The closure state of the in-memory variants: the `todosDB` array and the
`nextTodoId` counter. -/
structure MemStore where
  todos : List MemTodo
  nextTodoId : Nat
deriving DecidableEq, Repr

/-- `const todosDB = [{ id: 1, text: "Learn SSR" }, { id: 2, text: "Profit" }];
let nextTodoId = 3;` (src/app.tsx lines 140-141). -/
def initMemStore : MemStore :=
  { todos := [⟨1, some "Learn SSR"⟩, ⟨2, some "Profit"⟩], nextTodoId := 3 }

/-- A parsed JSON request body for `POST /api/todos`; the `text` field may be
absent (`none`). -/
structure ReqBody where
  text : Option String
deriving DecidableEq, Repr

/-- The reply sent by the in-memory POST handler: an HTTP status and the
created record. -/
structure MemPostReply where
  status : Nat
  todo : MemTodo
deriving DecidableEq, Repr

/-- `server.post('/api/todos', (req, reply) => { const newTodo = { id:
nextTodoId++, text: (req.body as any).text }; todosDB.push(newTodo);
reply.status(201).send(newTodo); })` (src/app.tsx lines 158-162;
src/unnamed/part_000 lines 220-224).  `nextTodoId++` yields the old counter
value and increments it; `push` appends at the end of the array. -/
def postApiTodosMem (s : MemStore) (body : ReqBody) : MemPostReply × MemStore :=
  let newTodo : MemTodo := ⟨s.nextTodoId, body.text⟩
  (⟨201, newTodo⟩, { todos := s.todos ++ [newTodo], nextTodoId := s.nextTodoId + 1 })

/-- `server.get('/api/todos', (req, reply) => { reply.send(todosDB); })`
(src/app.tsx line 157). -/
def getApiTodosMem (s : MemStore) : List MemTodo := s.todos

/-- State after a sequence of `POST /api/todos` requests against the in-memory
store, in request order. -/
def applyPostsMem (s : MemStore) : List ReqBody → MemStore
  | [] => s
  | b :: bs => applyPostsMem (postApiTodosMem s b).2 bs

/-! ## SQLite-backed todo store (src/unnamed/part_002 lines 117-137, src/unnamed/part_003 lines 39-64)

Schema: `CREATE TABLE IF NOT EXISTS todos (id INTEGER PRIMARY KEY
AUTOINCREMENT, text TEXT NOT NULL)`.  The SQLite AUTOINCREMENT rowid
algorithm assigns, to each inserted row, one more than the largest rowid ever
assigned in the table (tracked in `sqlite_sequence`); rows are stored and
returned by `SELECT * FROM todos` (no ORDER BY) in rowid order.  `seq` models
that largest-ever-assigned id (0 for a fresh database). -/

structure SqlTodo where
  id : Nat
  text : String
deriving DecidableEq, Repr

structure SqliteStore where
  rows : List SqlTodo
  seq : Nat
deriving DecidableEq, Repr

/-- A freshly created `appo.db`: empty table, sequence counter 0. -/
def emptySqliteStore : SqliteStore := { rows := [], seq := 0 }

/-- `insertTodo.run(text)` followed by `getTodoById.get(info.lastInsertRowid)`:
the inserted row, with rowid `seq + 1`, appended in rowid order. -/
def insertTodoSql (s : SqliteStore) (text : String) : SqlTodo × SqliteStore :=
  let t : SqlTodo := ⟨s.seq + 1, text⟩
  (t, { rows := s.rows ++ [t], seq := s.seq + 1 })

/-- `server.get('/api/todos', (_, r) => r.send(getAllTodos.all()))`:
`SELECT * FROM todos` without ORDER BY returns the rows in rowid order. -/
def getApiTodosSql (s : SqliteStore) : List SqlTodo := s.rows

/-- Reply of the strict SQLite POST handlers: either
`r.status(400).send({ error })` or `r.status(201).send(<created row>)`. -/
inductive SqlPostReply where
  | badRequest (error : String)
  | created (todo : SqlTodo)
deriving DecidableEq, Repr

/-- JS `String.prototype.trim`: remove leading and trailing whitespace
(`Char.isWhitespace` covers the ASCII whitespace JS trims). -/
def jsTrim (s : String) : String :=
  ⟨((s.data.dropWhile Char.isWhitespace).reverse.dropWhile Char.isWhitespace).reverse⟩

/-- src/unnamed/part_002 lines 132-137:
`const { text } = q.body; if (!text || !text.trim()) return
r.status(400).send({ error: 'Text required' }); const info =
insertTodo.run(text); r.status(201).send(getTodoById.get(info.lastInsertRowid));`
For a string `text`, `!text` is truth-y exactly when `text === ''`, and
`!text.trim()` exactly when the trimmed text is empty. -/
def postApiTodos002 (s : SqliteStore) (text : String) : SqlPostReply × SqliteStore :=
  if text = "" ∨ jsTrim text = "" then
    (.badRequest "Text required", s)
  else
    let (t, s') := insertTodoSql s text
    (.created t, s')

/-- src/unnamed/part_003 lines 58-64:
`const { text } = req.body as { text: string }; if (!text) return
reply.status(400).send({ error: 'Text is required' }); const info =
insertTodo.run(text); const newTodo = getTodoById.get(info.lastInsertRowid);
reply.status(201).send(newTodo);`
Note: only falsiness of `text` is checked, so whitespace-only text passes. -/
def postApiTodos003 (s : SqliteStore) (text : String) : SqlPostReply × SqliteStore :=
  if text = "" then
    (.badRequest "Text is required", s)
  else
    let (t, s') := insertTodoSql s text
    (.created t, s')

/-- State after a sequence of `POST /api/todos` requests against the
part_003 handler, in request order. -/
def applyPosts003 (s : SqliteStore) : List String → SqliteStore
  | [] => s
  | t :: ts => applyPosts003 (postApiTodos003 s t).2 ts

/-! ## Store invariants -/

/-- Every id in the in-memory array is below the counter. -/
def memInv (s : MemStore) : Prop := ∀ t ∈ s.todos, t.id < s.nextTodoId

/-- Every rowid in the table is at most the sequence counter. -/
def sqlInv (s : SqliteStore) : Prop := ∀ r ∈ s.rows, r.id ≤ s.seq

theorem memInv_init : memInv initMemStore := by
  intro t ht
  simp only [initMemStore, List.mem_cons, List.not_mem_nil, or_false] at ht
  rcases ht with h | h <;> subst h <;> decide

theorem memInv_post (s : MemStore) (b : ReqBody) (h : memInv s) :
    memInv (postApiTodosMem s b).2 := by
  intro t ht
  simp only [postApiTodosMem, List.mem_append, List.mem_singleton] at ht
  rcases ht with ht | ht
  · exact Nat.lt_succ_of_lt (h t ht)
  · subst ht; exact Nat.lt_succ_self _

theorem memInv_applyPosts (s : MemStore) (bs : List ReqBody) (h : memInv s) :
    memInv (applyPostsMem s bs) := by
  induction bs generalizing s with
  | nil => exact h
  | cons b bs ih => exact ih _ (memInv_post s b h)

theorem sqlInv_empty : sqlInv emptySqliteStore := by
  intro r hr
  simp [emptySqliteStore] at hr

theorem sqlInv_post003 (s : SqliteStore) (t : String) (h : sqlInv s) :
    sqlInv (postApiTodos003 s t).2 := by
  intro r hr
  by_cases ht : t = ""
  · simp only [postApiTodos003, if_pos ht] at hr ⊢
    exact h r hr
  · simp only [postApiTodos003, if_neg ht, insertTodoSql, List.mem_append,
      List.mem_singleton] at hr ⊢
    rcases hr with hr | hr
    · exact Nat.le_succ_of_le (h r hr)
    · subst hr; exact Nat.le_refl _

theorem sqlInv_applyPosts003 (s : SqliteStore) (ts : List String) (h : sqlInv s) :
    sqlInv (applyPosts003 s ts) := by
  induction ts generalizing s with
  | nil => exact h
  | cons t ts ih => exact ih _ (sqlInv_post003 s t h)

/-! ## Appending structure of sequences of posts -/

theorem applyPostsMem_append (s : MemStore) (l₁ l₂ : List ReqBody) :
    applyPostsMem s (l₁ ++ l₂) = applyPostsMem (applyPostsMem s l₁) l₂ := by
  induction l₁ generalizing s with
  | nil => rfl
  | cons b bs ih =>
    simp only [List.cons_append, applyPostsMem]
    exact ih _

theorem applyPostsMem_todos (s : MemStore) (bs : List ReqBody) :
    (applyPostsMem s bs).todos.map (·.text)
      = s.todos.map (·.text) ++ bs.map (·.text) := by
  induction bs generalizing s with
  | nil => simp [applyPostsMem]
  | cons b bs ih =>
    simp only [applyPostsMem, ih, postApiTodosMem, List.map_append, List.map_cons]
    simp

theorem applyPostsMem_length (s : MemStore) (bs : List ReqBody) :
    (applyPostsMem s bs).todos.length = s.todos.length + bs.length := by
  have h := congrArg List.length (applyPostsMem_todos s bs)
  simpa using h

theorem applyPosts003_rows (s : SqliteStore) (ts : List String)
    (h : ∀ t ∈ ts, t ≠ "") :
    (applyPosts003 s ts).rows.map (·.text) = s.rows.map (·.text) ++ ts := by
  induction ts generalizing s with
  | nil => simp [applyPosts003]
  | cons t ts ih =>
    have ht : t ≠ "" := h t (List.mem_cons_self t ts)
    simp only [applyPosts003, postApiTodos003, if_neg ht, insertTodoSql]
    rw [ih _ (fun x hx => h x (List.mem_cons_of_mem t hx))]
    simp

/-! ## Sortedness of stored ids -/

theorem memSorted_post (s : MemStore) (b : ReqBody) (hinv : memInv s)
    (hs : (s.todos.map (·.id)).Pairwise (· < ·)) :
    ((postApiTodosMem s b).2.todos.map (·.id)).Pairwise (· < ·) := by
  simp only [postApiTodosMem, List.map_append, List.map_cons, List.map_nil]
  rw [List.pairwise_append]
  refine ⟨hs, List.pairwise_singleton _ _, ?_⟩
  intro x hx y hy
  simp only [List.mem_singleton] at hy
  subst hy
  simp only [List.mem_map] at hx
  obtain ⟨t, ht, rfl⟩ := hx
  exact hinv t ht

theorem memSorted_applyPosts (s : MemStore) (bs : List ReqBody)
    (hinv : memInv s) (hs : (s.todos.map (·.id)).Pairwise (· < ·)) :
    ((applyPostsMem s bs).todos.map (·.id)).Pairwise (· < ·) := by
  induction bs generalizing s with
  | nil => exact hs
  | cons b bs ih => exact ih _ (memInv_post s b hinv) (memSorted_post s b hinv hs)

theorem sqlSorted_post003 (s : SqliteStore) (t : String) (hinv : sqlInv s)
    (hs : (s.rows.map (·.id)).Pairwise (· < ·)) :
    ((postApiTodos003 s t).2.rows.map (·.id)).Pairwise (· < ·) := by
  by_cases ht : t = ""
  · simpa [postApiTodos003, if_pos ht] using hs
  · simp only [postApiTodos003, if_neg ht, insertTodoSql, List.map_append,
      List.map_cons, List.map_nil]
    rw [List.pairwise_append]
    refine ⟨hs, List.pairwise_singleton _ _, ?_⟩
    intro x hx y hy
    simp only [List.mem_singleton] at hy
    subst hy
    simp only [List.mem_map] at hx
    obtain ⟨r, hr, rfl⟩ := hx
    exact Nat.lt_succ_of_le (hinv r hr)

theorem sqlSorted_applyPosts003 (s : SqliteStore) (ts : List String)
    (hinv : sqlInv s) (hs : (s.rows.map (·.id)).Pairwise (· < ·)) :
    ((applyPosts003 s ts).rows.map (·.id)).Pairwise (· < ·) := by
  induction ts generalizing s with
  | nil => exact hs
  | cons t ts ih => exact ih _ (sqlInv_post003 s t hinv) (sqlSorted_post003 s t hinv hs)

/-! ## Claims about the todo stores -/

/-- Claim C1: for every successful creation via `POST /api/todos` with
non-empty text, the identifier in the 201 response is strictly greater than
every identifier previously assigned by that store (in-memory counter or
SQLite primary key); hence identifiers are unique and never reused.  Stated
for every state reachable by a sequence of posts from the store's initial
state, for both the in-memory store (src/app.tsx) and the SQLite store
behind the strict handler (src/unnamed/part_002, part_003 semantics). -/
theorem c1_response_id_exceeds_all_previous (bs : List ReqBody) (b : ReqBody)
    (ts : List String) (t : String) (x y : Nat)
    (hx : x ∈ (applyPostsMem initMemStore bs).todos.map (·.id))
    (ht : t ≠ "")
    (hy : y ∈ (applyPosts003 emptySqliteStore ts).rows.map (·.id)) :
    ((postApiTodosMem (applyPostsMem initMemStore bs) b).1.status = 201
      ∧ x < (postApiTodosMem (applyPostsMem initMemStore bs) b).1.todo.id)
    ∧ (∃ newTodo,
        (postApiTodos003 (applyPosts003 emptySqliteStore ts) t).1 = .created newTodo
          ∧ y < newTodo.id)
    ∧ ((applyPostsMem initMemStore bs).todos.map (·.id)).Pairwise (· ≠ ·) := by
  have hminv : memInv (applyPostsMem initMemStore bs) :=
    memInv_applyPosts _ _ memInv_init
  have hsinv : sqlInv (applyPosts003 emptySqliteStore ts) :=
    sqlInv_applyPosts003 _ _ sqlInv_empty
  refine ⟨⟨rfl, ?_⟩, ?_, ?_⟩
  · simp only [List.mem_map] at hx
    obtain ⟨td, htd, rfl⟩ := hx
    exact hminv td htd
  · refine ⟨⟨(applyPosts003 emptySqliteStore ts).seq + 1, t⟩, ?_, ?_⟩
    · simp [postApiTodos003, if_neg ht, insertTodoSql]
    · simp only [List.mem_map] at hy
      obtain ⟨r, hr, rfl⟩ := hy
      exact Nat.lt_succ_of_le (hsinv r hr)
  · exact (memSorted_applyPosts _ _ memInv_init (by decide)).imp Nat.ne_of_lt

/-- Witness for C1, at one prior post against each store. -/
theorem c1_response_id_exceeds_all_previous_witness :
    ((postApiTodosMem (applyPostsMem initMemStore [⟨some "a"⟩]) ⟨some "b"⟩).1.status = 201
      ∧ 3 < (postApiTodosMem (applyPostsMem initMemStore [⟨some "a"⟩]) ⟨some "b"⟩).1.todo.id)
    ∧ (∃ newTodo,
        (postApiTodos003 (applyPosts003 emptySqliteStore ["x"]) "y").1 = .created newTodo
          ∧ 1 < newTodo.id)
    ∧ ((applyPostsMem initMemStore [⟨some "a"⟩]).todos.map (·.id)).Pairwise (· ≠ ·) :=
  c1_response_id_exceeds_all_previous [⟨some "a"⟩] ⟨some "b"⟩ ["x"] "y" 3 1
    (by decide) (by decide) (by decide)

/-- Claim C3 counterexample: the strict handler of src/unnamed/part_003
checks only `!text`, so the whitespace-only text `" "` is accepted: it
responds 201 with a created record, not 400 with no record created. -/
theorem c3_counterexample :
    (postApiTodos003 emptySqliteStore " ").1 = .created ⟨1, " "⟩
    ∧ (postApiTodos003 emptySqliteStore " ").2.rows = [⟨1, " "⟩] := by
  decide

/-- Claim C3 (amended): `POST /api/todos` with body `{ text }` creates a
record and responds 201 with the created record when accepted.  Empty text is
rejected with 400 and no record created in both strict variants; whitespace-only
text is rejected only by the strict variant that trims (part_002), while the
other strict variant (part_003) accepts any non-empty text verbatim with 201,
and the lenient variants accept every text verbatim with 201. -/
theorem c3_empty_text_handling (s : SqliteStore) (ms : MemStore)
    (t u : String) (body : ReqBody)
    (htrim : jsTrim t = "") (hu : u ≠ "") :
    postApiTodos002 s t = (.badRequest "Text required", s)
    ∧ postApiTodos003 s "" = (.badRequest "Text is required", s)
    ∧ postApiTodos003 s u
        = (.created ⟨s.seq + 1, u⟩,
           { rows := s.rows ++ [⟨s.seq + 1, u⟩], seq := s.seq + 1 })
    ∧ (postApiTodosMem ms body).1 = ⟨201, ⟨ms.nextTodoId, body.text⟩⟩ := by
  refine ⟨?_, ?_, ?_, rfl⟩
  · simp [postApiTodos002, htrim]
  · simp [postApiTodos003]
  · simp [postApiTodos003, if_neg hu, insertTodoSql]

/-- Witness for the amended C3: text `" "` trims to empty yet is non-empty. -/
theorem c3_empty_text_handling_witness :
    postApiTodos002 emptySqliteStore " " = (.badRequest "Text required", emptySqliteStore)
    ∧ postApiTodos003 emptySqliteStore "" = (.badRequest "Text is required", emptySqliteStore)
    ∧ postApiTodos003 emptySqliteStore " "
        = (.created ⟨1, " "⟩, { rows := [⟨1, " "⟩], seq := 1 })
    ∧ (postApiTodosMem initMemStore ⟨none⟩).1 = ⟨201, ⟨3, none⟩⟩ := by
  have h := c3_empty_text_handling emptySqliteStore initMemStore " " " " ⟨none⟩
    (by decide) (by decide)
  simpa [emptySqliteStore, initMemStore] using h

/-- Claim C4 counterexample: the in-memory store of src/app.tsx starts with
two seeded records (`Learn SSR`, `Profit`), so after zero successful
creations `GET /api/todos` returns a list with two elements, not zero. -/
theorem c4_counterexample :
    (getApiTodosMem (applyPostsMem initMemStore [])).length = 2
    ∧ (getApiTodosMem (applyPostsMem initMemStore [])).length ≠ 0 := by
  decide

/-- Claim C4 (amended): starting from the store's initial state, after N
successful creations via `POST /api/todos`, `GET /api/todos` returns a list
with the initial number of records plus N elements — exactly N for the fresh
SQLite store of src/unnamed/part_003, and 2 + N for the seeded in-memory
store of src/app.tsx — and each created element's text matches the text
submitted in its creation request, in order. -/
theorem c4_listing_after_creations (bodies : List ReqBody) (ts : List String)
    (hts : ∀ t ∈ ts, t ≠ "") :
    ((getApiTodosMem (applyPostsMem initMemStore bodies)).length
        = initMemStore.todos.length + bodies.length
      ∧ (getApiTodosMem (applyPostsMem initMemStore bodies)).map (·.text)
        = [some "Learn SSR", some "Profit"] ++ bodies.map (·.text))
    ∧ ((getApiTodosSql (applyPosts003 emptySqliteStore ts)).length = ts.length
      ∧ (getApiTodosSql (applyPosts003 emptySqliteStore ts)).map (·.text) = ts) := by
  have hsql := applyPosts003_rows emptySqliteStore ts hts
  simp only [emptySqliteStore, List.map_nil, List.nil_append] at hsql
  refine ⟨⟨applyPostsMem_length _ _, ?_⟩, ?_, hsql⟩
  · simpa [initMemStore] using applyPostsMem_todos initMemStore bodies
  · have h := congrArg List.length hsql
    simpa [getApiTodosSql] using h

/-- Witness for the amended C4, with two creations against each store. -/
theorem c4_listing_after_creations_witness :
    ((getApiTodosMem (applyPostsMem initMemStore [⟨some "Buy milk"⟩, ⟨some "q"⟩])).length
        = initMemStore.todos.length + 2
      ∧ (getApiTodosMem (applyPostsMem initMemStore [⟨some "Buy milk"⟩, ⟨some "q"⟩])).map (·.text)
        = [some "Learn SSR", some "Profit"] ++ [some "Buy milk", some "q"]
      )
    ∧ ((getApiTodosSql (applyPosts003 emptySqliteStore ["a", "b"])).length = 2
      ∧ (getApiTodosSql (applyPosts003 emptySqliteStore ["a", "b"])).map (·.text) = ["a", "b"]) :=
  c4_listing_after_creations [⟨some "Buy milk"⟩, ⟨some "q"⟩] ["a", "b"] (by decide)

/-- Claim C8: after any sequence of creation operations, `GET /api/todos`
returns the todos in strictly ascending identifier order, which is also
creation order: each insert appends at the end (array push, or SQLite rowid
order of `SELECT *` without ORDER BY), and no operation reorders, updates, or
removes existing records. -/
theorem c8_listing_ascending_append_only (bodies : List ReqBody) (b : ReqBody)
    (ts : List String) :
    ((getApiTodosMem (applyPostsMem initMemStore bodies)).map (·.id)).Pairwise (· < ·)
    ∧ (applyPostsMem initMemStore (bodies ++ [b])).todos
        = (applyPostsMem initMemStore bodies).todos
          ++ [⟨(applyPostsMem initMemStore bodies).nextTodoId, b.text⟩]
    ∧ ((getApiTodosSql (applyPosts003 emptySqliteStore ts)).map (·.id)).Pairwise (· < ·)
    ∧ getApiTodosMem (applyPostsMem initMemStore bodies)
        = (applyPostsMem initMemStore bodies).todos := by
  refine ⟨?_, ?_, ?_, rfl⟩
  · exact memSorted_applyPosts _ _ memInv_init (by decide)
  · rw [applyPostsMem_append]
    rfl
  · exact sqlSorted_applyPosts003 _ _ sqlInv_empty (by decide)

/-- Claim C9: in the lenient in-memory variants the creation handler is total
and never takes an error branch: for every request body, including one with no
`text` field at all (`text = none`), `POST /api/todos` responds 201, appends a
record whose text is whatever was supplied (possibly `undefined`), and
increments the id counter — from any state reachable by prior posts. -/
theorem c9_lenient_handler_total (bodies : List ReqBody) (body : ReqBody) :
    (postApiTodosMem (applyPostsMem initMemStore bodies) body).1.status = 201
    ∧ (postApiTodosMem (applyPostsMem initMemStore bodies) body).1.todo.text = body.text
    ∧ (postApiTodosMem (applyPostsMem initMemStore bodies) body).2.nextTodoId
        = (applyPostsMem initMemStore bodies).nextTodoId + 1
    ∧ (postApiTodosMem (applyPostsMem initMemStore bodies) body).2.todos
        = (applyPostsMem initMemStore bodies).todos
          ++ [⟨(applyPostsMem initMemStore bodies).nextTodoId, body.text⟩] :=
  ⟨rfl, rfl, rfl, rfl⟩

/-! ## Page dispatch and hydration handoff (C2)

The server embeds a page identifier in the HTML
(`window.__PAGE_NAME__ = "${PageComponent.name}"` in src/app.tsx lines
179-181, or `window.__APP_DATA__ = { pageName, props }` in src/server.tsx
lines 827-856); the client resolves it through the `Pagemap` object
(src/app.tsx lines 119-126) or the `switch (pageName)` (src/server.tsx lines
925-934). -/

/-- The four page components shared by every variant. -/
inductive PageId where
  | WelcomePage
  | TodoPage
  | StarWarsIndexPage
  | StarWarsMoviePage
deriving DecidableEq, Repr

/-- `PageComponent.name` — the string the server serializes into the HTML
(equal to the declared function name, and to the `pageName` literal of the
`AppData` variant). -/
def pageName : PageId → String
  | .WelcomePage => "WelcomePage"
  | .TodoPage => "TodoPage"
  | .StarWarsIndexPage => "StarWarsIndexPage"
  | .StarWarsMoviePage => "StarWarsMoviePage"

/-- The static routes of the page map. -/
inductive PageRoute where
  | root
  | todo
  | starWarsIndex
  | starWarsMovie
deriving DecidableEq, Repr

/-- Which page component the server renders for each route
(src/app.tsx lines 190-210; src/server.tsx lines 833-856). -/
def serverPageFor : PageRoute → PageId
  | .root => .WelcomePage
  | .todo => .TodoPage
  | .starWarsIndex => .StarWarsIndexPage
  | .starWarsMovie => .StarWarsMoviePage

/-- `const Pagemap = { WelcomePage, TodoPage, StarWarsIndexPage,
StarWarsMoviePage }; const Page = Pagemap[window.__PAGE_NAME__];`
(src/app.tsx lines 119-126): JS property lookup by key, `none` when the key
is not a property (the lookup yields `undefined`). -/
def pagemapLookup (name : String) : Option PageId :=
  if name = "WelcomePage" then some .WelcomePage
  else if name = "TodoPage" then some .TodoPage
  else if name = "StarWarsIndexPage" then some .StarWarsIndexPage
  else if name = "StarWarsMoviePage" then some .StarWarsMoviePage
  else none

/-- `switch (pageName) { case 'WelcomePage': ... case 'TodoPage': ...
case 'StarWarsIndexPage': ... case 'StarWarsMoviePage': ... }`
(src/server.tsx lines 928-933); `none` when no case matches
(`pageElement` stays `null`). -/
def appDataSwitchLookup (name : String) : Option PageId :=
  if name = "WelcomePage" then some .WelcomePage
  else if name = "TodoPage" then some .TodoPage
  else if name = "StarWarsIndexPage" then some .StarWarsIndexPage
  else if name = "StarWarsMoviePage" then some .StarWarsMoviePage
  else none

/-- Claim C2: for every route in the static page map, the page identifier
serialized into the server-rendered HTML, when parsed by the client and fed to
the client-side page lookup (`Pagemap` keyed by `window.__PAGE_NAME__`, or the
`switch` over `window.__APP_DATA__.pageName`), resolves to the same page
component the server used to render that route. -/
theorem c2_hydration_roundtrip (r : PageRoute) :
    pagemapLookup (pageName (serverPageFor r)) = some (serverPageFor r)
    ∧ appDataSwitchLookup (pageName (serverPageFor r)) = some (serverPageFor r) := by
  cases r <;> exact ⟨rfl, rfl⟩

/-! ## Bootstrap sequencer (C5, C6)

Two bootstrap styles exist:
* src/server.tsx lines 866-916: a re-exec state machine driven by the
  `APPO_STATE` environment variable (`undefined` → stage 0 CLEANUP, `'1'` →
  INSTALL, `'2'` → TYPE-CHECK, `'3'` → RUN), where `become(next)` re-spawns
  the script with `APPO_STATE = next` and exits;
* src/unnamed/part_001 lines 462-500 and src/unnamed/part_004 lines 213-232:
  an in-process `main` that, for the default (no-argument) command, runs
  `clean(); await install(); await tsc(); await serve();` inside a
  `try/catch` whose handler logs the error and calls `process.exit(1)`. -/

/-- What the bootstrap state machine does at one `APPO_STATE` value.  `code`
is the exit code of the stage's spawned child (`pnpm add` at stage 1, `tsc` at
stage 2), `none` when the child was terminated without an exit code. -/
inductive BootOutcome where
  | reexec (nextState : String)
  | runningApp
  | fatal
  | noop
deriving DecidableEq, Repr

/-- The `if (!state) ... else if (state === '1') ... else if (state === '2')
... else if (state === '3') ...` chain of src/server.tsx lines 883-910.
Stage 0 deletes build artifacts and always re-execs as stage 1; stages 1 and 2
re-exec as the next stage only when their spawned child exited 0, and
otherwise throw (`pnpm add failed` / `tsc failed`), which kills the process
with a logged error and a non-zero exit code; stage 3 runs the application.
An unrecognized marker matches no branch. -/
def bootstrapStep (state : Option String) (code : Option Int) : BootOutcome :=
  match state with
  | none => .reexec "1"
  | some s =>
    if s = "1" then (if code = some 0 then .reexec "2" else .fatal)
    else if s = "2" then (if code = some 0 then .reexec "3" else .fatal)
    else if s = "3" then .runningApp
    else .noop

/-- Position of an `APPO_STATE` marker in the UNINITIALIZED → INSTALLED →
TYPE-CHECKED → RUNNING order (markers `undefined`, `'1'`, `'2'`, `'3'`). -/
def stateMarkerIdx (state : Option String) : Option Nat :=
  match state with
  | none => some 0
  | some s =>
    if s = "1" then some 1
    else if s = "2" then some 2
    else if s = "3" then some 3
    else none

/-- Steps of the in-process bootstrap `main` (src/unnamed/part_001,
src/unnamed/part_004). -/
inductive CmdStep where
  | clean
  | install
  | tsc
  | serve
deriving DecidableEq, Repr

/-- Result of one run of `main` with the default (no-argument) command: the
steps entered in order, the exit code forced by `process.exit` (`some 1` from
the catch handler, `none` when the run reaches `serve()`), and whether the
catch handler logged an error. -/
structure MainRun where
  steps : List CmdStep
  exitCode : Option Nat
  errorLogged : Bool
deriving DecidableEq, Repr

/-- `if (code !== 0) throw new Error('pnpm add failed')` after
`await run('pnpm', ['add', ...])` (src/unnamed/part_001 lines 409-418). -/
def installStep (code : Option Int) : Except String Unit :=
  if code = some 0 then .ok () else .error "pnpm add failed"

/-- `if (code !== 0) throw new Error('tsc failed')` after
`await run('pnpm', ['exec', 'tsc', ...])` (src/unnamed/part_001 lines 421-428). -/
def tscStep (code : Option Int) : Except String Unit :=
  if code = some 0 then .ok () else .error "tsc failed"

/-- The default command path of `main`:
`try { clean(); await install(); await tsc(); await serve(); } catch (error)
{ console.error(...); process.exit(1); }` (src/unnamed/part_001 lines
462-500; src/unnamed/part_004 lines 213-232).  `installCode` and `tscCode`
are the exit codes of the two spawned children. -/
def mainDefault (installCode tscCode : Option Int) : MainRun :=
  match installStep installCode with
  | .error _ => ⟨[.clean, .install], some 1, true⟩
  | .ok () =>
    match tscStep tscCode with
    | .error _ => ⟨[.clean, .install, .tsc], some 1, true⟩
    | .ok () => ⟨[.clean, .install, .tsc, .serve], none, false⟩

/-- Claim C5: the bootstrap sequencer visits UNINITIALIZED (clean),
INSTALLED, TYPE-CHECKED, RUNNING strictly in that order: every re-exec
transition advances the `APPO_STATE` marker to the immediate next stage
(never skipping, never going backward), the all-success trajectory from the
clean state is exactly `undefined → '1' → '2' → '3' →` run, and the
in-process `main` enters clean, install, tsc, serve exactly in that order. -/
theorem c5_bootstrap_stage_order (s : Option String) (i : Nat)
    (code : Option Int) (next : String)
    (hidx : stateMarkerIdx s = some i)
    (hstep : bootstrapStep s code = .reexec next) :
    stateMarkerIdx (some next) = some (i + 1)
    ∧ bootstrapStep none code = .reexec "1"
    ∧ bootstrapStep (some "1") (some 0) = .reexec "2"
    ∧ bootstrapStep (some "2") (some 0) = .reexec "3"
    ∧ bootstrapStep (some "3") code = .runningApp
    ∧ (mainDefault (some 0) (some 0)).steps
        = [.clean, .install, .tsc, .serve] := by
  refine ⟨?_, rfl, rfl, rfl, rfl, rfl⟩
  match s with
  | none =>
    simp only [bootstrapStep, BootOutcome.reexec.injEq] at hstep
    simp only [stateMarkerIdx, Option.some.injEq] at hidx
    subst hstep
    simp [stateMarkerIdx]
    omega
  | some str =>
    by_cases h1 : str = "1"
    · subst h1
      by_cases hc : code = some 0
      · subst hc
        simp [bootstrapStep] at hstep
        simp [stateMarkerIdx] at hidx
        subst hstep
        simp [stateMarkerIdx]
        omega
      · simp [bootstrapStep, hc] at hstep
    · by_cases h2 : str = "2"
      · subst h2
        by_cases hc : code = some 0
        · subst hc
          simp [bootstrapStep] at hstep
          simp [stateMarkerIdx] at hidx
          subst hstep
          simp [stateMarkerIdx]
          omega
        · simp [bootstrapStep, hc] at hstep
      · by_cases h3 : str = "3"
        · subst h3
          simp [bootstrapStep] at hstep
        · simp [stateMarkerIdx, h1, h2, h3] at hidx

/-- Witness for C5 at the INSTALL stage with a successful `pnpm add`. -/
theorem c5_bootstrap_stage_order_witness :
    stateMarkerIdx (some "2") = some (1 + 1)
    ∧ bootstrapStep none (some 0) = .reexec "1"
    ∧ bootstrapStep (some "1") (some 0) = .reexec "2"
    ∧ bootstrapStep (some "2") (some 0) = .reexec "3"
    ∧ bootstrapStep (some "3") (some 0) = .runningApp
    ∧ (mainDefault (some 0) (some 0)).steps
        = [.clean, .install, .tsc, .serve] :=
  c5_bootstrap_stage_order (some "1") 1 (some 0) "2" rfl rfl

/-- Claim C6: if any bootstrap stage's spawned step exits non-zero (`pnpm
add` or `tsc`), the sequence aborts: an error is logged and the process exits
with code 1; no later stage is entered and nothing is retried.  For the
in-process `main`, a failed install stops before tsc and serve, a failed tsc
stops before serve, the catch handler logs and forces exit code 1, and each
step is attempted exactly once; for the `APPO_STATE` machine, a non-zero
`pnpm add` or `tsc` exit code is fatal at stage 1 or 2 (no re-exec into the
next stage). -/
theorem c6_failure_is_fatal (installCode tscCode : Option Int)
    (hfail : installCode ≠ some 0) (htscfail : tscCode ≠ some 0) :
    (mainDefault installCode tscCode
        = ⟨[.clean, .install], some 1, true⟩
      ∧ CmdStep.tsc ∉ (mainDefault installCode tscCode).steps
      ∧ CmdStep.serve ∉ (mainDefault installCode tscCode).steps
      ∧ (mainDefault installCode tscCode).steps.count .install = 1)
    ∧ (mainDefault (some 0) tscCode
        = ⟨[.clean, .install, .tsc], some 1, true⟩
      ∧ CmdStep.serve ∉ (mainDefault (some 0) tscCode).steps
      ∧ (mainDefault (some 0) tscCode).steps.count .tsc = 1)
    ∧ bootstrapStep (some "1") installCode = .fatal
    ∧ bootstrapStep (some "2") tscCode = .fatal := by
  refine ⟨⟨?_, ?_, ?_, ?_⟩, ⟨?_, ?_, ?_⟩, ?_, ?_⟩
  all_goals
    simp [mainDefault, installStep, tscStep, bootstrapStep, hfail, htscfail,
      List.count_cons]

/-- Witness for C6 at concrete failing exit codes. -/
theorem c6_failure_is_fatal_witness :
    (mainDefault (some 1) (some 2)
        = ⟨[.clean, .install], some 1, true⟩
      ∧ CmdStep.tsc ∉ (mainDefault (some 1) (some 2)).steps
      ∧ CmdStep.serve ∉ (mainDefault (some 1) (some 2)).steps
      ∧ (mainDefault (some 1) (some 2)).steps.count .install = 1)
    ∧ (mainDefault (some 0) (some 2)
        = ⟨[.clean, .install, .tsc], some 1, true⟩
      ∧ CmdStep.serve ∉ (mainDefault (some 0) (some 2)).steps
      ∧ (mainDefault (some 0) (some 2)).steps.count .tsc = 1)
    ∧ bootstrapStep (some "1") (some 1) = .fatal
    ∧ bootstrapStep (some "2") (some 2) = .fatal :=
  c6_failure_is_fatal (some 1) (some 2) (by decide) (by decide)

/-! ## Server-rendered HTML for `GET /star-wars/:id` (C7, C10)

Markup is rendered to strings mirroring the JSX component trees; React's
exact attribute serialization is condensed (style objects are emitted as CSS
text) but every data dependency of the source components — in particular the
`currentUrl` flowing into each nav `Link`'s `href === currentUrl` check — is
kept exactly. -/

/-- Movie details parsed from the remote films endpoint. -/
structure MovieDetails where
  title : String
  director : String
  producer : String
  release_date : String
deriving DecidableEq, Repr

/-- `url.split('?')[0]`: the part of the URL before the first `'?'`. -/
def splitQHead (url : String) : String :=
  ⟨url.data.takeWhile (fun c => c != '?')⟩

/-- `href.replace(/[^a-z0-9]/g, '_')` (src/server.tsx line 133). -/
def jsIdSafe (href : String) : String :=
  ⟨href.data.map (fun c => if ('a' ≤ c ∧ c ≤ 'z') ∨ ('0' ≤ c ∧ c ≤ '9') then c else '_')⟩

/-- The `Link` of src/server.tsx lines 128-135: anchor with
`id="nav_link_<idSafe>"`, the style gaining `backgroundColor: '#eee'` exactly
when `href === currentUrl`. -/
def linkV2 (href label currentUrl : String) : String :=
  let style := if href = currentUrl
    then "padding:2px 10px;text-decoration:none;background-color:#eee"
    else "padding:2px 10px;text-decoration:none"
  "<a id=\"nav_link_" ++ jsIdSafe href ++ "\" href=\"" ++ href ++ "\" style=\""
    ++ style ++ "\">" ++ label ++ "</a>"

/-- The `Layout` of src/server.tsx lines 138-148: wrapper div, nav with the
three links, main with the page content. -/
def layoutV2 (currentUrl children : String) : String :=
  "<div id=\"layout_root\" style=\"display:flex;max-width:960px;margin:auto\">"
    ++ "<nav id=\"main_nav\" style=\"padding:20px;border-right:1px solid #eee\">"
    ++ "<h2>appo-singlefile</h2>"
    ++ linkV2 "/" "Welcome" currentUrl
    ++ linkV2 "/todo" "Todo" currentUrl
    ++ linkV2 "/star-wars" "Star Wars" currentUrl
    ++ "</nav>"
    ++ "<main id=\"main_content\" style=\"padding:20px\">" ++ children ++ "</main></div>"

/-- `StarWarsMoviePage` of src/server.tsx lines 224-240 as the server renders
it: `renderToString` does not run effects, so `movie` is still `null` and the
loading heading is emitted. -/
def starWarsMoviePageSsrV2 : String := "<h1 id=\"loading_msg\">Loading movie...</h1>"

/-- `sendHtml` of src/server.tsx lines 353-363. -/
def sendHtmlV2 (appHtml : String) : String :=
  "<!DOCTYPE html>\n<html>\n  <head><title>appo</title></head>\n  <body>\n    <div id=\"root\">"
    ++ appHtml ++ "</div>\n    <script src=\"/client.js\"></script>\n  </body>\n</html>"

/-- `handleStarWarsMovie` of src/server.tsx lines 390-395: computes
`currentUrl = req.url.split('?')[0]`, renders `StarWarsMoviePage` inside the
layout without fetching anything, and sends the HTML.  The `:id` route
parameter is never read. -/
def handleStarWarsMovie (url : String) : String :=
  sendHtmlV2 (layoutV2 (splitQHead url) starWarsMoviePageSsrV2)

/-- The `Link` of src/unnamed/part_004 lines 21-24 (no id attribute). -/
def linkV4 (href label currentUrl : String) : String :=
  let style := if href = currentUrl
    then "padding:2px 10px;text-decoration:none;background-color:#eee"
    else "padding:2px 10px;text-decoration:none"
  "<a href=\"" ++ href ++ "\" style=\"" ++ style ++ "\">" ++ label ++ "</a>"

/-- The `Layout` of src/unnamed/part_004 lines 25-35. -/
def layoutV4 (currentUrl children : String) : String :=
  "<div style=\"display:flex;max-width:960px;margin:auto\">"
    ++ "<nav style=\"padding:20px;border-right:1px solid #eee\"><h2>appo-singlefile</h2>"
    ++ linkV4 "/" "Welcome" currentUrl
    ++ linkV4 "/todo" "Todo" currentUrl
    ++ linkV4 "/star-wars" "Star Wars" currentUrl
    ++ "</nav><main style=\"padding:20px\">" ++ children ++ "</main></div>"

/-- `sendHtml` of src/unnamed/part_004 lines 121-125. -/
def sendHtmlV4 (appHtml : String) : String :=
  "<!DOCTYPE html><html><head><title>appo</title></head><body><div id=\"root\">"
    ++ appHtml ++ "</div>\n        <script src=\"/client.js\"></script></body></html>"

/-- The `GET /star-wars/:id` handler of src/unnamed/part_004 line 130:
`sendHtml(rep, renderToString(<Layout currentUrl={req.url.split('?')[0]}>
<pages.StarWarsMoviePage /></Layout>))`; `movie` is `null` at server render
(effects do not run), so the loading heading is emitted; the id is unused. -/
def handleStarWarsMovieV4 (url : String) : String :=
  sendHtmlV4 (layoutV4 (splitQHead url) "<h1>Loading movie...</h1>")

/-! ### The fetching variant of the movie route (src/app.tsx lines 205-210) -/

/-- The `Link` of src/app.tsx lines 10-14. -/
def linkApp (href label currentUrl : String) : String :=
  let style := if href = currentUrl
    then "padding:2px 10px;text-decoration:none;display:block;background-color:#eee"
    else "padding:2px 10px;text-decoration:none;display:block"
  "<a href=\"" ++ href ++ "\" style=\"" ++ style ++ "\">" ++ label ++ "</a>"

/-- The `Layout` of src/app.tsx lines 16-30. -/
def layoutApp (currentUrl children : String) : String :=
  "<div style=\"display:flex;max-width:960px;margin:auto;font-family:sans-serif\">"
    ++ "<div style=\"padding:20px;border-right:1px solid #eee;flex-shrink:0\">"
    ++ "<h2>appo-singlefile</h2>"
    ++ linkApp "/" "Welcome" currentUrl
    ++ linkApp "/todo" "Todo" currentUrl
    ++ linkApp "/star-wars" "Star Wars" currentUrl
    ++ "</div><div style=\"padding:20px;width:100%\">" ++ children ++ "</div></div>"

/-- `StarWarsMoviePage` of src/app.tsx lines 91-100 (this variant receives
the fetched movie as a prop). -/
def starWarsMoviePageApp (m : MovieDetails) : String :=
  "<h1>" ++ m.title ++ "</h1><p>Director: " ++ m.director ++ "</p><p>Producer: "
    ++ m.producer ++ "</p><p>Release Date: " ++ m.release_date ++ "</p>"

/-- `JSON.stringify` of a plain string (the source props contain no quotes or
escapes). -/
def jsonString (s : String) : String := "\"" ++ s ++ "\""

/-- `JSON.stringify({ movie })` for the movie-page props. -/
def moviePropsJson (m : MovieDetails) : String :=
  "\x7b\"movie\":\x7b\"title\":" ++ jsonString m.title
    ++ ",\"director\":" ++ jsonString m.director
    ++ ",\"producer\":" ++ jsonString m.producer
    ++ ",\"release_date\":" ++ jsonString m.release_date ++ "\x7d\x7d"

/-- `renderPage` of src/app.tsx lines 165-187: layout-wrapped page markup in
`#root`, plus the script tag serializing `window.__PAGE_NAME__` and
`window.__INITIAL_PROPS__`. -/
def renderPageApp (pageNameStr propsJson pageHtml url : String) : String :=
  "<!DOCTYPE html><html><head><title>appo-singlefile</title></head><body><div id=\"root\">"
    ++ layoutApp url pageHtml
    ++ "</div><script>window.__PAGE_NAME__ = \"" ++ pageNameStr
    ++ "\";window.__INITIAL_PROPS__ = " ++ propsJson
    ++ ";</script><script src=\"/client.js\"></script></body></html>"

/-- `server.get('/star-wars/:id', async (req, reply) => { ... const response
= await fetch(`.../films/${id}.json`); const movie = await response.json();
renderPage(reply, StarWarsMoviePage, { movie }, req.url); })` (src/app.tsx
lines 205-210).  `remote` models `fetch` + `response.json()` composed: `some`
parsed details when the API knows the id, `none` when the response body fails
to parse as JSON (as for an id unknown to the remote API).  In the `none`
case `await response.json()` rejects and the rejection propagates out of the
handler — `renderPage` is never reached and no rendered page is sent
(`Except.error ()`). -/
def getStarWarsIdApp (remote : String → Option MovieDetails) (id url : String) :
    Except Unit String :=
  match remote id with
  | none => .error ()
  | some movie =>
    .ok (renderPageApp "StarWarsMoviePage" (moviePropsJson movie)
      (starWarsMoviePageApp movie) url)

/-! ### URL facts used by the movie-route claims -/

theorem takeWhile_append_of_forall (p : Char → Bool) (l₁ l₂ : List Char)
    (h : ∀ c ∈ l₁, p c = true) :
    (l₁ ++ l₂).takeWhile p = l₁ ++ l₂.takeWhile p := by
  induction l₁ with
  | nil => simp
  | cons a l ih =>
    have ha : p a = true := h a (List.mem_cons_self a l)
    simp only [List.cons_append, List.takeWhile_cons, ha, if_true]
    exact congrArg (a :: ·) (ih fun c hc => h c (List.mem_cons_of_mem a hc))

theorem splitQHead_append (pre s : String)
    (h : ∀ c ∈ pre.data, (c != '?') = true) :
    splitQHead (pre ++ s) = pre ++ splitQHead s := by
  apply String.ext
  show (pre ++ s).data.takeWhile (fun c => c != '?') = (pre ++ splitQHead s).data
  rw [String.data_append, String.data_append]
  exact takeWhile_append_of_forall _ _ _ h

theorem starwars_url_ne_root (s : String) : "/star-wars/" ++ s ≠ "/" := by
  intro h
  have hl := congrArg String.length h
  rw [String.length_append] at hl
  have h1 : ("/star-wars/" : String).length = 11 := by decide
  have h2 : ("/" : String).length = 1 := by decide
  omega

theorem starwars_url_ne_todo (s : String) : "/star-wars/" ++ s ≠ "/todo" := by
  intro h
  have hl := congrArg String.length h
  rw [String.length_append] at hl
  have h1 : ("/star-wars/" : String).length = 11 := by decide
  have h2 : ("/todo" : String).length = 5 := by decide
  omega

theorem starwars_url_ne_index (s : String) : "/star-wars/" ++ s ≠ "/star-wars" := by
  intro h
  have hl := congrArg String.length h
  rw [String.length_append] at hl
  have h1 : ("/star-wars/" : String).length = 11 := by decide
  have h2 : ("/star-wars" : String).length = 10 := by decide
  omega

theorem layoutV2_not_nav (c₁ c₂ k : String)
    (h₁ : c₁ ≠ "/") (h₂ : c₁ ≠ "/todo") (h₃ : c₁ ≠ "/star-wars")
    (h₁' : c₂ ≠ "/") (h₂' : c₂ ≠ "/todo") (h₃' : c₂ ≠ "/star-wars") :
    layoutV2 c₁ k = layoutV2 c₂ k := by
  simp [layoutV2, linkV2, Ne.symm h₁, Ne.symm h₂, Ne.symm h₃,
    Ne.symm h₁', Ne.symm h₂', Ne.symm h₃']

theorem layoutV4_not_nav (c₁ c₂ k : String)
    (h₁ : c₁ ≠ "/") (h₂ : c₁ ≠ "/todo") (h₃ : c₁ ≠ "/star-wars")
    (h₁' : c₂ ≠ "/") (h₂' : c₂ ≠ "/todo") (h₃' : c₂ ≠ "/star-wars") :
    layoutV4 c₁ k = layoutV4 c₂ k := by
  simp [layoutV4, linkV4, Ne.symm h₁, Ne.symm h₂, Ne.symm h₃,
    Ne.symm h₁', Ne.symm h₂', Ne.symm h₃']

set_option maxRecDepth 16384 in
theorem handleStarWarsMovie_id_invariant (id : String) :
    handleStarWarsMovie ("/star-wars/" ++ id) = handleStarWarsMovie "/star-wars/" := by
  unfold handleStarWarsMovie
  rw [splitQHead_append _ _ (by decide)]
  rfl

set_option maxRecDepth 16384 in
theorem handleStarWarsMovieV4_id_invariant (id : String) :
    handleStarWarsMovieV4 ("/star-wars/" ++ id) = handleStarWarsMovieV4 "/star-wars/" := by
  unfold handleStarWarsMovieV4
  rw [splitQHead_append _ _ (by decide)]
  rfl

set_option maxRecDepth 16384 in
/-- Claim C7 counterexample: in the self-bootstrapping variant
(`handleStarWarsMovie`, src/server.tsx lines 390-395 — one of the claim's
cited handlers), a request for the id 999, which is unknown to the remote
API, does not surface as a server-side failure: the server sends this
complete rendered HTML page to the client. -/
theorem c7_counterexample :
    handleStarWarsMovie "/star-wars/999"
      = "<!DOCTYPE html>\n<html>\n  <head><title>appo</title></head>\n  <body>\n    <div id=\"root\"><div id=\"layout_root\" style=\"display:flex;max-width:960px;margin:auto\"><nav id=\"main_nav\" style=\"padding:20px;border-right:1px solid #eee\"><h2>appo-singlefile</h2><a id=\"nav_link__\" href=\"/\" style=\"padding:2px 10px;text-decoration:none\">Welcome</a><a id=\"nav_link__todo\" href=\"/todo\" style=\"padding:2px 10px;text-decoration:none\">Todo</a><a id=\"nav_link__star_wars\" href=\"/star-wars\" style=\"padding:2px 10px;text-decoration:none\">Star Wars</a></nav><main id=\"main_content\" style=\"padding:20px\"><h1 id=\"loading_msg\">Loading movie...</h1></main></div></div>\n    <script src=\"/client.js\"></script>\n  </body>\n</html>" := by
  rfl

/-- Claim C7 (amended): for `GET /star-wars/:id` with an identifier unknown
to the remote API, the variants that fetch the movie server-side
(src/app.tsx, part_000, part_002, part_003) behave as the claim states —
`response.json()` fails to parse, the rejection propagates, and no rendered
page is returned — while the self-bootstrapping variants (src/server.tsx,
part_001, part_004) never fetch on this route and return the same rendered
loading page for every id, known or unknown. -/
theorem c7_unknown_id_behavior (remote : String → Option MovieDetails)
    (id url : String) (h : remote id = none) :
    getStarWarsIdApp remote id url = .error ()
    ∧ handleStarWarsMovie ("/star-wars/" ++ id) = handleStarWarsMovie "/star-wars/"
    ∧ handleStarWarsMovieV4 ("/star-wars/" ++ id) = handleStarWarsMovieV4 "/star-wars/" := by
  refine ⟨?_, handleStarWarsMovie_id_invariant id, handleStarWarsMovieV4_id_invariant id⟩
  simp [getStarWarsIdApp, h]

/-- Witness for the amended C7 with a remote API that knows no ids. -/
theorem c7_unknown_id_behavior_witness :
    getStarWarsIdApp (fun _ => none) "999" "/star-wars/999" = .error ()
    ∧ handleStarWarsMovie ("/star-wars/" ++ "999") = handleStarWarsMovie "/star-wars/"
    ∧ handleStarWarsMovieV4 ("/star-wars/" ++ "999") = handleStarWarsMovieV4 "/star-wars/" :=
  c7_unknown_id_behavior (fun _ => none) "999" "/star-wars/999" rfl

/-- Claim C10: in the self-bootstrapping variants, the HTML response for
`GET /star-wars/:id` does not depend on the id: for any two identifiers
requested against the same store state, the server sends byte-identical
response bodies, since the handler renders `StarWarsMoviePage` without
fetching the movie and no `/star-wars/<id>` URL matches any nav link's
`href`. -/
theorem c10_movie_response_id_independent (id₁ id₂ : String) :
    handleStarWarsMovie ("/star-wars/" ++ id₁) = handleStarWarsMovie ("/star-wars/" ++ id₂)
    ∧ handleStarWarsMovieV4 ("/star-wars/" ++ id₁)
        = handleStarWarsMovieV4 ("/star-wars/" ++ id₂) :=
  ⟨(handleStarWarsMovie_id_invariant id₁).trans
      (handleStarWarsMovie_id_invariant id₂).symm,
   (handleStarWarsMovieV4_id_invariant id₁).trans
      (handleStarWarsMovieV4_id_invariant id₂).symm⟩
